import Mathlib

/-!
Verification of the autoscaling decision logic of
`paasta_tools/autoscaling_lib.py` (a Python 2 module: it uses `print`
statements, so `/` on two ints is integer division).

Python floats are modelled as rationals; Python ints as integers.
A Python exception raised by a modelled computation is represented by
`Option`/`Except` failure values.
-/

namespace Autoscaling

/-- Python 2 `int(...)` applied to a float: truncation toward zero. -/
def pyint (q : ℚ) : ℤ :=
  if q < 0 then ⌈q⌉ else ⌊q⌋

/-- Python 2 `round(...)`: rounds half away from zero. -/
def pyround (q : ℚ) : ℤ :=
  if q < 0 then ⌈q - 1/2⌉ else ⌊q + 1/2⌋

/-- Module constant `AUTOSCALING_DELAY = 300`. -/
def AUTOSCALING_DELAY : ℤ := 300

/-- Module constant `MISSING_SLAVE_PANIC_THRESHOLD = .3`. -/
def MISSING_SLAVE_PANIC_THRESHOLD : ℚ := 3/10

/-- Module constant `MAX_CLUSTER_DELTA = .1`. -/
def MAX_CLUSTER_DELTA : ℚ := 1/10

/-- `threshold_decision_policy(current_instances, error, **kwargs)`:
`autoscaling_amount = max(1, int(current_instances * 0.1))`, returned with the
sign of the error, and `0` on zero error. -/
def threshold_decision_policy (current_instances : ℤ) (error : ℚ) : ℤ :=
  let autoscaling_amount : ℤ := max 1 (pyint ((current_instances : ℚ) * (1/10)))
  if error > 0 then autoscaling_amount
  else if |error| > 0 then -autoscaling_amount
  else 0

/-- The persisted PID state read from and written to the controller state
store: paths `pid_iterm`, `pid_last_error`, `pid_last_time`. -/
structure PIDState where
  iterm : ℚ
  last_error : ℚ
  last_time : ℚ
  deriving Repr, DecidableEq

/-- `pid_decision_policy(zookeeper_path, current_instances, min_instances,
max_instances, error, **kwargs)`: the pure computation, with the persisted
state passed in and the updated state returned.  `Ki = 4 / AUTOSCALING_DELAY`
is Python 2 integer division of two ints, hence `0`.  The return line divides
by `time_delta`; when `time_delta = 0` Python raises `ZeroDivisionError`,
modelled as `none`. -/
def pid_decision_policy (current_instances min_instances max_instances : ℤ)
    (error : ℚ) (st : PIDState) (current_time : ℤ) : Option (ℤ × PIDState) :=
  let min_delta : ℚ := ((min_instances - current_instances : ℤ) : ℚ)
  let max_delta : ℚ := ((max_instances - current_instances : ℤ) : ℚ)
  let clamp_value : ℚ → ℚ := fun number => min (max number min_delta) max_delta
  let Kp : ℚ := 4
  let Ki : ℚ := ((4 / AUTOSCALING_DELAY : ℤ) : ℚ)
  let Kd : ℚ := ((1 * AUTOSCALING_DELAY : ℤ) : ℚ)
  let time_delta : ℚ := (current_time : ℚ) - st.last_time
  let iterm : ℚ := clamp_value (st.iterm + (Ki * error) * time_delta)
  if time_delta = 0 then none
  else some (pyround (clamp_value (Kp * error + iterm + Kd * (error - st.last_error) / time_delta)),
    { iterm := iterm, last_error := error, last_time := (current_time : ℚ) })

/-- The PID output as the specification words it: `integral' = clamp(integral
+ Ki·error·time_delta, min_instances − current_instances, max_instances −
current_instances)` with `Ki = 4/300` a true ratio, and output
`round(clamp(Kp·error + integral' + Kd·(error − last_error)/time_delta, same
bounds))` with `Kp = 4`, `Kd = 300`.  Stated for comparison with
`pid_decision_policy`. -/
def pid_spec_delta (current_instances min_instances max_instances : ℤ)
    (error integral last_error time_delta : ℚ) : ℤ :=
  let min_delta : ℚ := ((min_instances - current_instances : ℤ) : ℚ)
  let max_delta : ℚ := ((max_instances - current_instances : ℤ) : ℚ)
  let clamp_value : ℚ → ℚ := fun number => min (max number min_delta) max_delta
  let integral' : ℚ := clamp_value (integral + (4/300) * error * time_delta)
  pyround (clamp_value (4 * error + integral' + 300 * (error - last_error) / time_delta))

/-- `get_error_from_utilization(utilization, setpoint, current_instances)`:
dead-band error derivation.  `current_instances` is a positive int in every
caller; the rational division is total in the model. -/
def get_error_from_utilization (utilization setpoint : ℚ) (current_instances : ℤ) : ℚ :=
  let max_threshold : ℚ := setpoint
  let min_threshold : ℚ := max_threshold * ((current_instances : ℚ) - 1) / (current_instances : ℚ)
  if utilization < min_threshold then utilization - min_threshold
  else if utilization > max_threshold then utilization - max_threshold
  else 0

/-- A cluster resource descriptor: the `min_instances`/`max_instances` keys
of the `resource` dict consumed by `spotfleet_scaler`. -/
structure ClusterResource where
  min_instances : ℤ
  max_instances : ℤ
  deriving Repr, DecidableEq

/-- The capacity computed by `spotfleet_scaler(resource, error)` for an
active fleet with target capacity `current_capacity`:
`ideal_capacity = int(ceil((1 + error) * current_capacity))` and
`new_capacity = int(min(max(resource['min_instances'],
floor(current_capacity * 0.9), ideal_capacity, 1),
ceil(current_capacity * 1.1), resource['max_instances']))`.
`ceil`/`floor` return integer-valued floats, so the outer `int` is the
identity on them. -/
def spotfleet_scaler_capacity (resource : ClusterResource) (error : ℚ)
    (current_capacity : ℤ) : ℤ :=
  let ideal_capacity : ℤ := ⌈(1 + error) * (current_capacity : ℚ)⌉
  min (min (max (max (max resource.min_instances
                      ⌊(current_capacity : ℚ) * (1 - MAX_CLUSTER_DELTA)⌋)
                 ideal_capacity)
            1)
       ⌈(current_capacity : ℚ) * (1 + MAX_CLUSTER_DELTA)⌉)
    resource.max_instances

/-- `clamp(x, lo, hi) = min(max(x, lo), hi)`, as the specification words the
scaler bound. -/
def clamp (x lo hi : ℤ) : ℤ := min (max x lo) hi

/-- Exceptions the spot-fleet metrics provider can raise: the unguarded
`current_instances / desired_instances` raises `ZeroDivisionError` when the
fleet has no active instances, and the panic guard raises
`ClusterAutoscalingError`. -/
inductive ProviderFailure where
  | zeroDivisionError : ProviderFailure
  | clusterAutoscalingError : ProviderFailure
  deriving Repr, DecidableEq

/-- `spotfleet_metrics_provider(spotfleet_request_id, mesos_state, pool)`,
reduced to its decision structure: `desired_instances` is the number of
active fleet instances, `current_instances` the number of pool-matched
registered slaves, and `pool_utilization` stands for the externally computed
pool resource utilization returned on success.  The `log.info` line and the
panic guard both divide by `desired_instances`, raising `ZeroDivisionError`
when it is zero; the guard raises `ClusterAutoscalingError` when
`float(current_instances) / desired_instances < 1.00 -
MISSING_SLAVE_PANIC_THRESHOLD`. -/
def spotfleet_metrics_provider (desired_instances current_instances : ℤ)
    (pool_utilization : ℚ) : Except ProviderFailure ℚ :=
  if desired_instances = 0 then .error .zeroDivisionError
  else if (current_instances : ℚ) / (desired_instances : ℚ) < 1 - MISSING_SLAVE_PANIC_THRESHOLD then
    .error .clusterAutoscalingError
  else .ok pool_utilization

/-- Outcome of the body executed under `create_autoscaling_lock()`: the pass
either completes or raises an exception mid-pass. -/
inductive BodyOutcome where
  | ok : BodyOutcome
  | raises : BodyOutcome
  deriving Repr, DecidableEq

/-- Observable effects of one run of the `create_autoscaling_lock` context
manager: whether the lock was acquired, whether `lock.release()` was called,
and whether `zk.stop()` was called. -/
structure LockTrace where
  acquired : Bool
  released : Bool
  stopped : Bool
  deriving Repr, DecidableEq

/-- `create_autoscaling_lock()`: `try: lock.acquire(timeout=1); yield`
`except LockTimeout: raise LockHeldException(...)` `else: lock.release()`
`finally: zk.stop()`.  When acquisition times out the except clause re-raises
and the else clause is skipped; when the body raises, the exception
propagates and the else clause is also skipped; `zk.stop()` always runs. -/
def create_autoscaling_lock (acquire_succeeds : Bool) (body : BodyOutcome) : LockTrace :=
  if acquire_succeeds then
    match body with
    | .ok => { acquired := true, released := true, stopped := true }
    | .raises => { acquired := true, released := false, stopped := true }
  else
    { acquired := false, released := false, stopped := true }

/-- Outcome of processing one autoscaling target inside an orchestrator
loop: success, a raised `ClusterAutoscalingError`, or any other raised
exception. -/
inductive TargetOutcome where
  | ok : TargetOutcome
  | clusterError : TargetOutcome
  | otherError : TargetOutcome
  deriving Repr, DecidableEq

/-- What the orchestrator loop recorded for one target: a completed scaling
evaluation, or an exception converted to a logged message. -/
inductive Disposition where
  | scaled : Disposition
  | loggedException : Disposition
  deriving Repr, DecidableEq

/-- The per-config loop of `autoscale_services`: `for config in configs:`
`try: ... autoscale_marathon_instance(...)` `except Exception as e:`
`write_to_log(...)`.  Every exception is caught at the loop boundary, so
every config is processed. -/
def autoscale_services_loop : List TargetOutcome → List Disposition
  | [] => []
  | .ok :: rest => .scaled :: autoscale_services_loop rest
  | .clusterError :: rest => .loggedException :: autoscale_services_loop rest
  | .otherError :: rest => .loggedException :: autoscale_services_loop rest

/-- The per-resource loop of `autoscale_local_cluster`: `try: ...`
`except ClusterAutoscalingError as e: log.error(...)`.  Only
`ClusterAutoscalingError` is caught; any other exception propagates out of
the loop and aborts the pass, modelled as `Except.error`. -/
def autoscale_local_cluster_loop : List TargetOutcome → Except Unit (List Disposition)
  | [] => .ok []
  | .ok :: rest => (autoscale_local_cluster_loop rest).map (.scaled :: ·)
  | .clusterError :: rest => (autoscale_local_cluster_loop rest).map (.loggedException :: ·)
  | .otherError :: _ => .error ()

/-- The fields of a marathon service config that the eligibility filter of
`autoscale_services` reads, plus the identity of the service instance. -/
structure ServiceConfig where
  service : String
  instanceName : String
  maxInstances : Option ℤ
  desiredState : String
  decisionPolicy : String
  deriving Repr, DecidableEq

/-- The eligibility test of `autoscale_services`:
`if service_config.get_max_instances() and service_config.get_desired_state()
== 'start' and service_config.get_autoscaling_params()['decision_policy'] !=
'bespoke'`.  Python truthiness of `get_max_instances()` means a non-None,
nonzero value. -/
def eligible_for_autoscaling (c : ServiceConfig) : Bool :=
  (match c.maxInstances with
   | none => false
   | some n => n != 0)
  && c.desiredState == "start"
  && c.decisionPolicy != "bespoke"

/-- The `configs` list built by `autoscale_services`: the input services
filtered by the eligibility test. -/
def autoscale_services_configs (cs : List ServiceConfig) : List ServiceConfig :=
  cs.filter eligible_for_autoscaling

/-- The `set_instances_for_marathon_service` actions a pass can issue: each
eligible config may yield one new instance count, decided by the pipeline
abstracted as `decide_new_count`; ineligible configs are never passed to
`autoscale_marathon_instance` and so never reach `set_instances`. -/
def autoscale_services_actions (cs : List ServiceConfig)
    (decide_new_count : ServiceConfig → Option ℤ) : List (ServiceConfig × ℤ) :=
  (autoscale_services_configs cs).filterMap
    (fun c => (decide_new_count c).map (fun n => (c, n)))

end Autoscaling

namespace Autoscaling

/-- C1: with persisted state (0, 0, 0), error 1, current time 300 (so
time_delta = 300 > 0), current_instances 5 and bounds [1, 100], the code
returns delta 5, whereas the claimed formula with Ki = 4/300 gives
round(clamp(4·1 + 4 + 300·1/300)) = 9: in the Python 2 source,
`Ki = 4 / AUTOSCALING_DELAY` is integer division and evaluates to 0, so the
integral term never accumulates. -/
theorem pid_integral_term_dead_at_unit_error :
    pid_decision_policy 5 1 100 1 ⟨0, 0, 0⟩ 300 = some (5, ⟨0, 1, 300⟩) ∧
    pid_spec_delta 5 1 100 1 0 0 300 = 9 := by
  constructor
  · simp only [pid_decision_policy, pyround, AUTOSCALING_DELAY]
    norm_num
  · simp only [pid_spec_delta, pyround]
    norm_num

/-- C2: when the current timestamp equals the persisted last sample
timestamp, time_delta = 0 and the unguarded division in the derivative term
raises ZeroDivisionError (modelled as `none`): the code does not guard the
derivative term against a zero time_delta. -/
theorem pid_zero_time_delta_division_by_zero :
    pid_decision_policy 5 1 10 1 ⟨0, 0, 100⟩ 100 = none := by
  simp only [pid_decision_policy, AUTOSCALING_DELAY]
  norm_num

/-- C3 counterexample: when the body of the locked region raises an
exception mid-pass, the `else` clause of `create_autoscaling_lock` is
skipped and `lock.release()` is never called, refuting the claim that the
lock is released on every exit path. -/
theorem lock_not_released_on_exception :
    (create_autoscaling_lock true BodyOutcome.raises).released = false := by
  rfl

/-- C3 amended: `zk.stop()` runs on every exit path of
`create_autoscaling_lock` (the `finally` clause), but `lock.release()` runs
exactly when the lock was acquired and the locked body completed without an
exception; an exception raised mid-pass skips the explicit release and
leaves it to the session teardown. -/
theorem lock_release_only_on_normal_exit (a : Bool) (b : BodyOutcome) :
    (create_autoscaling_lock a b).stopped = true ∧
    ((create_autoscaling_lock a b).released = true ↔ a = true ∧ b = BodyOutcome.ok) := by
  cases a <;> cases b <;> simp [create_autoscaling_lock]

/-- C4 counterexample: for a resource with bounds [1, 100], current capacity
5 and error −1, the scaler computes new_capacity = 4, which is strictly
below 0.9 · 5 = 4.5, refuting the claim that the applied capacity always
lies within the real interval [0.9·c, 1.1·c] (the lower bound is
floor(0.9·c), not 0.9·c). -/
theorem scaler_capacity_below_point_nine_current :
    spotfleet_scaler_capacity ⟨1, 100⟩ (-1) 5 = 4 ∧
    ((spotfleet_scaler_capacity ⟨1, 100⟩ (-1) 5 : ℤ) : ℚ) < (9/10) * 5 := by
  have h1 : (⌈(11/2 : ℚ)⌉ : ℤ) = 6 := by
    rw [Int.ceil_eq_iff]
    norm_num
  have h2 : (⌊(9/2 : ℚ)⌋ : ℤ) = 4 := by
    rw [Int.floor_eq_iff]
    norm_num
  have h : spotfleet_scaler_capacity ⟨1, 100⟩ (-1) 5 = 4 := by
    simp only [spotfleet_scaler_capacity, MAX_CLUSTER_DELTA]
    norm_num [h1, h2]
  refine ⟨h, ?_⟩
  rw [h]
  norm_num

/-- C4 amended: for every active fleet with current capacity c ≥ 1, the
computed new_capacity equals clamp(ceil((1+error)·c), lower, upper) with
lower = max(min_instances, floor(0.9·c), 1) and upper = min(ceil(1.1·c),
max_instances); whenever lower ≤ upper the result lies in [lower, upper]
(hence within the configured bounds, within [floor(0.9·c), ceil(1.1·c)] and
at least 1); in particular c = 10, error = 0.5 yields new_capacity = 11. -/
theorem scaler_capacity_clamped (r : ClusterResource) (e : ℚ) (c : ℤ)
    (h : 1 ≤ c) :
    spotfleet_scaler_capacity r e c =
      clamp (⌈(1 + e) * (c : ℚ)⌉)
        (max (max r.min_instances ⌊(c : ℚ) * (9/10)⌋) 1)
        (min (⌈(c : ℚ) * (11/10)⌉) r.max_instances) ∧
    (max (max r.min_instances ⌊(c : ℚ) * (9/10)⌋) 1 ≤
        min (⌈(c : ℚ) * (11/10)⌉) r.max_instances →
      max (max r.min_instances ⌊(c : ℚ) * (9/10)⌋) 1 ≤ spotfleet_scaler_capacity r e c ∧
      spotfleet_scaler_capacity r e c ≤ min (⌈(c : ℚ) * (11/10)⌉) r.max_instances) ∧
    spotfleet_scaler_capacity ⟨1, 100⟩ (1/2) 10 = 11 := by
  have hnine : (c : ℚ) * (1 - MAX_CLUSTER_DELTA) = (c : ℚ) * (9/10) := by
    rw [MAX_CLUSTER_DELTA]; ring
  have heleven : (c : ℚ) * (1 + MAX_CLUSTER_DELTA) = (c : ℚ) * (11/10) := by
    rw [MAX_CLUSTER_DELTA]; ring
  refine ⟨?_, ?_, ?_⟩
  · simp only [spotfleet_scaler_capacity, clamp, hnine, heleven]
    omega
  · intro hlu
    simp only [spotfleet_scaler_capacity, hnine, heleven]
    omega
  · simp only [spotfleet_scaler_capacity, MAX_CLUSTER_DELTA]
    norm_num

/-- C4 witness: the amended scaler theorem applied at the concrete scenario
resource bounds [1, 100], error 0.5, current capacity 10. -/
theorem scaler_capacity_clamped_witness :
    (1 : ℤ) ≤ 10 ∧
    (spotfleet_scaler_capacity ⟨1, 100⟩ (1/2) 10 =
       clamp (⌈(1 + (1/2 : ℚ)) * ((10 : ℤ) : ℚ)⌉)
         (max (max (ClusterResource.mk 1 100).min_instances ⌊((10 : ℤ) : ℚ) * (9/10)⌋) 1)
         (min (⌈((10 : ℤ) : ℚ) * (11/10)⌉) (ClusterResource.mk 1 100).max_instances) ∧
     (max (max (ClusterResource.mk 1 100).min_instances ⌊((10 : ℤ) : ℚ) * (9/10)⌋) 1 ≤
         min (⌈((10 : ℤ) : ℚ) * (11/10)⌉) (ClusterResource.mk 1 100).max_instances →
       max (max (ClusterResource.mk 1 100).min_instances ⌊((10 : ℤ) : ℚ) * (9/10)⌋) 1 ≤
         spotfleet_scaler_capacity ⟨1, 100⟩ (1/2) 10 ∧
       spotfleet_scaler_capacity ⟨1, 100⟩ (1/2) 10 ≤
         min (⌈((10 : ℤ) : ℚ) * (11/10)⌉) (ClusterResource.mk 1 100).max_instances) ∧
     spotfleet_scaler_capacity ⟨1, 100⟩ (1/2) 10 = 11) :=
  ⟨by norm_num, scaler_capacity_clamped ⟨1, 100⟩ (1/2) 10 (by norm_num)⟩

/-- C5 counterexample: in the cluster pass, an exception other than
ClusterAutoscalingError on the first resource aborts the loop, so the second
resource is not processed, refuting the claim that every per-target
exception is caught at the loop boundary in both orchestrators. -/
theorem cluster_pass_aborted_by_other_exception :
    autoscale_local_cluster_loop [TargetOutcome.otherError, TargetOutcome.ok] =
      Except.error () := by
  rfl

/-- C5 amended: the service pass catches every per-target exception at the
loop boundary and processes all targets; the cluster pass catches only
ClusterAutoscalingError per resource, so it completes (recording the same
dispositions as the service loop would) exactly when no target raises any
other exception. -/
theorem per_target_exception_isolation (ts : List TargetOutcome) :
    (autoscale_services_loop ts).length = ts.length ∧
    ((∀ t ∈ ts, t ≠ TargetOutcome.otherError) →
      autoscale_local_cluster_loop ts = Except.ok (autoscale_services_loop ts)) := by
  induction ts with
  | nil => simp [autoscale_services_loop, autoscale_local_cluster_loop]
  | cons hd tl ih =>
    cases hd <;>
      simp_all [autoscale_services_loop, autoscale_local_cluster_loop, Except.map]

/-- C5 witness: the isolation theorem applied to a pass of two targets, the
first succeeding and the second raising ClusterAutoscalingError. -/
theorem per_target_exception_isolation_witness :
    (∀ t ∈ [TargetOutcome.ok, TargetOutcome.clusterError],
      t ≠ TargetOutcome.otherError) ∧
    ((autoscale_services_loop [TargetOutcome.ok, TargetOutcome.clusterError]).length =
        [TargetOutcome.ok, TargetOutcome.clusterError].length ∧
      ((∀ t ∈ [TargetOutcome.ok, TargetOutcome.clusterError],
          t ≠ TargetOutcome.otherError) →
        autoscale_local_cluster_loop [TargetOutcome.ok, TargetOutcome.clusterError] =
          Except.ok (autoscale_services_loop [TargetOutcome.ok, TargetOutcome.clusterError]))) :=
  ⟨by simp, per_target_exception_isolation [TargetOutcome.ok, TargetOutcome.clusterError]⟩

/-- C6: whenever the fleet has at least one active instance and the ratio of
pool-matched registered slaves to active fleet instances is below
1 − MISSING_SLAVE_PANIC_THRESHOLD = 0.7, the spot-fleet metrics provider
fails with ClusterAutoscalingError and produces no utilization value. -/
theorem spotfleet_panic_guard (desired current : ℤ) (u : ℚ)
    (hd : 0 < desired)
    (hr : (current : ℚ) / (desired : ℚ) < 1 - MISSING_SLAVE_PANIC_THRESHOLD) :
    spotfleet_metrics_provider desired current u =
      Except.error ProviderFailure.clusterAutoscalingError := by
  unfold spotfleet_metrics_provider
  rw [if_neg (by omega), if_pos hr]

/-- C6 witness: ten desired instances with six matched slaves (ratio 0.6 <
0.7) raise ClusterAutoscalingError. -/
theorem spotfleet_panic_guard_witness :
    (0 : ℤ) < 10 ∧
    ((6 : ℤ) : ℚ) / ((10 : ℤ) : ℚ) < 1 - MISSING_SLAVE_PANIC_THRESHOLD ∧
    spotfleet_metrics_provider 10 6 0 =
      Except.error ProviderFailure.clusterAutoscalingError :=
  ⟨by norm_num,
   by rw [MISSING_SLAVE_PANIC_THRESHOLD]; norm_num,
   spotfleet_panic_guard 10 6 0 (by norm_num)
     (by rw [MISSING_SLAVE_PANIC_THRESHOLD]; norm_num)⟩

/-- C7: for nonnegative setpoint s and n ≥ 1 instances,
get_error_from_utilization returns 0 inside the dead band
[s·(n−1)/n, s], the negative value u − s·(n−1)/n below it, the positive
value u − s above it, and for n = 1 the lower threshold is 0. -/
theorem error_dead_band (u s : ℚ) (n : ℤ) (hn : 1 ≤ n) (hs : 0 ≤ s) :
    (s * ((n : ℚ) - 1) / (n : ℚ) ≤ u ∧ u ≤ s →
      get_error_from_utilization u s n = 0) ∧
    (u < s * ((n : ℚ) - 1) / (n : ℚ) →
      get_error_from_utilization u s n = u - s * ((n : ℚ) - 1) / (n : ℚ) ∧
      get_error_from_utilization u s n < 0) ∧
    (s < u → get_error_from_utilization u s n = u - s ∧
      0 < get_error_from_utilization u s n) ∧
    (n = 1 → s * ((n : ℚ) - 1) / (n : ℚ) = 0) := by
  have hn0 : (0 : ℚ) < (n : ℚ) := by exact_mod_cast hn
  have hmt : s * ((n : ℚ) - 1) / (n : ℚ) ≤ s := by
    rw [div_le_iff₀ hn0]
    nlinarith
  refine ⟨?_, ?_, ?_, ?_⟩
  · rintro ⟨h1, h2⟩
    unfold get_error_from_utilization
    rw [if_neg (by linarith), if_neg (by linarith)]
  · intro h1
    unfold get_error_from_utilization
    rw [if_pos h1]
    exact ⟨rfl, by linarith⟩
  · intro h1
    unfold get_error_from_utilization
    rw [if_neg (by linarith), if_pos h1]
    exact ⟨rfl, by linarith⟩
  · intro h1
    subst h1
    norm_num

/-- C7 witness: the dead-band theorem applied at utilization 9/10, setpoint
4/5 and two instances. -/
theorem error_dead_band_witness :
    (1 : ℤ) ≤ 2 ∧ (0 : ℚ) ≤ 4/5 ∧
    (((4/5 : ℚ) * (((2 : ℤ) : ℚ) - 1) / ((2 : ℤ) : ℚ) ≤ 9/10 ∧ (9/10 : ℚ) ≤ 4/5 →
        get_error_from_utilization (9/10) (4/5) 2 = 0) ∧
      ((9/10 : ℚ) < (4/5 : ℚ) * (((2 : ℤ) : ℚ) - 1) / ((2 : ℤ) : ℚ) →
        get_error_from_utilization (9/10) (4/5) 2 =
          9/10 - (4/5 : ℚ) * (((2 : ℤ) : ℚ) - 1) / ((2 : ℤ) : ℚ) ∧
        get_error_from_utilization (9/10) (4/5) 2 < 0) ∧
      ((4/5 : ℚ) < 9/10 → get_error_from_utilization (9/10) (4/5) 2 = 9/10 - 4/5 ∧
        0 < get_error_from_utilization (9/10) (4/5) 2) ∧
      ((2 : ℤ) = 1 → (4/5 : ℚ) * (((2 : ℤ) : ℚ) - 1) / ((2 : ℤ) : ℚ) = 0)) :=
  ⟨by norm_num, by norm_num, error_dead_band (9/10) (4/5) 2 (by norm_num) (by norm_num)⟩

/-- C8 counterexample: at 16 current instances and positive error the code
returns delta 1 = max(1, int(1.6)), while the claimed magnitude is
max(1, round(1.6)) = 2: the source truncates with int(), it does not
round. -/
theorem threshold_magnitude_truncates_not_rounds :
    threshold_decision_policy 16 1 = 1 ∧
    max 1 (pyround (((16 : ℤ) : ℚ) * (1/10))) = 2 := by
  constructor
  · simp only [threshold_decision_policy, pyint]
    norm_num
  · simp only [pyround]
    norm_num

/-- C8 amended: the threshold policy returns 0 on zero error, and otherwise
a delta with the sign of the error and magnitude
max(1, int(current_instances · 0.1)), where int() truncates toward zero. -/
theorem threshold_policy_sign_and_magnitude (n : ℤ) (e : ℚ) :
    (e = 0 → threshold_decision_policy n e = 0) ∧
    (0 < e → threshold_decision_policy n e = max 1 (pyint ((n : ℚ) * (1/10))) ∧
      0 < threshold_decision_policy n e) ∧
    (e < 0 → threshold_decision_policy n e = -max 1 (pyint ((n : ℚ) * (1/10))) ∧
      threshold_decision_policy n e < 0) := by
  have hpos : (0 : ℤ) < max 1 (pyint ((n : ℚ) * (1/10))) := by
    have := le_max_left (1 : ℤ) (pyint ((n : ℚ) * (1/10)))
    omega
  refine ⟨?_, ?_, ?_⟩
  · intro h
    subst h
    simp [threshold_decision_policy]
  · intro h
    unfold threshold_decision_policy
    rw [if_pos h]
    exact ⟨rfl, hpos⟩
  · intro h
    unfold threshold_decision_policy
    rw [if_neg (by linarith), if_pos (by rw [gt_iff_lt, abs_pos]; exact ne_of_lt h)]
    exact ⟨rfl, by omega⟩

/-- C8 witness: the amended threshold theorem applied at 16 instances and
error 1. -/
theorem threshold_policy_sign_and_magnitude_witness :
    (0 : ℚ) < 1 ∧
    (((1 : ℚ) = 0 → threshold_decision_policy 16 1 = 0) ∧
      ((0 : ℚ) < 1 → threshold_decision_policy 16 1 =
          max 1 (pyint (((16 : ℤ) : ℚ) * (1/10))) ∧
        0 < threshold_decision_policy 16 1) ∧
      ((1 : ℚ) < 0 → threshold_decision_policy 16 1 =
          -max 1 (pyint (((16 : ℤ) : ℚ) * (1/10))) ∧
        threshold_decision_policy 16 1 < 0)) :=
  ⟨by norm_num, threshold_policy_sign_and_magnitude 16 1⟩

/-- C9: with zero active fleet instances the spot-fleet metrics provider
raises ZeroDivisionError in the missing-node ratio check rather than
ClusterAutoscalingError, and with a positive count of active instances no
division by zero occurs. -/
theorem spotfleet_zero_desired_division (current : ℤ) (u : ℚ) :
    spotfleet_metrics_provider 0 current u =
      Except.error ProviderFailure.zeroDivisionError ∧
    (∀ d : ℤ, 0 < d → ∀ c : ℤ, ∀ v : ℚ,
      spotfleet_metrics_provider d c v ≠
        Except.error ProviderFailure.zeroDivisionError) := by
  constructor
  · unfold spotfleet_metrics_provider
    rw [if_pos rfl]
  · intro d hd c v
    unfold spotfleet_metrics_provider
    rw [if_neg (by omega)]
    split
    · intro h
      exact ProviderFailure.noConfusion (Except.error.inj h)
    · intro h
      exact Except.noConfusion h

/-- C9 witness: the division theorem applied at desired = 0 with six matched
slaves, and at desired = 10. -/
theorem spotfleet_zero_desired_division_witness :
    spotfleet_metrics_provider 0 6 0 =
      Except.error ProviderFailure.zeroDivisionError ∧
    (0 : ℤ) < 10 ∧
    spotfleet_metrics_provider 10 6 0 ≠
      Except.error ProviderFailure.zeroDivisionError :=
  ⟨(spotfleet_zero_desired_division 6 0).1, by norm_num,
   (spotfleet_zero_desired_division 6 0).2 10 (by norm_num) 6 0⟩

/-- C10: a service config is in the list considered by autoscale_services
exactly when it is among the loaded configs, has a non-null nonzero
max_instances, desired state start, and a decision policy other than
bespoke; and every set_instances action issued by the pass targets such a
config, so the instance count of every other service is left unchanged. -/
theorem autoscale_services_frame (cs : List ServiceConfig) (c : ServiceConfig)
    (decide_new_count : ServiceConfig → Option ℤ) :
    (c ∈ autoscale_services_configs cs ↔
      c ∈ cs ∧ (∃ n, c.maxInstances = some n ∧ n ≠ 0) ∧
      c.desiredState = "start" ∧ c.decisionPolicy ≠ "bespoke") ∧
    (∀ p ∈ autoscale_services_actions cs decide_new_count,
      p.1 ∈ cs ∧ eligible_for_autoscaling p.1 = true) := by
  constructor
  · rw [autoscale_services_configs, List.mem_filter]
    unfold eligible_for_autoscaling
    cases hmi : c.maxInstances with
    | none => simp [hmi]
    | some n =>
      simp only [hmi, Bool.and_eq_true, bne_iff_ne, beq_iff_eq, ne_eq,
        Option.some.injEq]
      constructor
      · rintro ⟨hc, ⟨hn, hds⟩, hdp⟩
        exact ⟨hc, ⟨n, rfl, by simpa using hn⟩, hds, hdp⟩
      · rintro ⟨hc, ⟨m, hm, hm0⟩, hds, hdp⟩
        cases hm
        exact ⟨hc, ⟨by simpa using hm0, hds⟩, hdp⟩
  · intro p hp
    rw [autoscale_services_actions, List.mem_filterMap] at hp
    obtain ⟨a, ha, hmap⟩ := hp
    rw [autoscale_services_configs, List.mem_filter] at ha
    cases hdn : decide_new_count a with
    | none => rw [hdn] at hmap; exact Option.noConfusion hmap
    | some m =>
      rw [hdn] at hmap
      cases hmap
      exact ⟨ha.1, ha.2⟩

/-- C10 witness: the frame theorem applied to a one-element config list
whose config is eligible, with a pipeline that scales it to 3 instances. -/
theorem autoscale_services_frame_witness :
    ((⟨"svc", "main", some 5, "start", "pid"⟩ : ServiceConfig) ∈
        autoscale_services_configs
          [(⟨"svc", "main", some 5, "start", "pid"⟩ : ServiceConfig)] ↔
      (⟨"svc", "main", some 5, "start", "pid"⟩ : ServiceConfig) ∈
          [(⟨"svc", "main", some 5, "start", "pid"⟩ : ServiceConfig)] ∧
        (∃ n, (⟨"svc", "main", some 5, "start", "pid"⟩ : ServiceConfig).maxInstances =
            some n ∧ n ≠ 0) ∧
        (⟨"svc", "main", some 5, "start", "pid"⟩ : ServiceConfig).desiredState = "start" ∧
        (⟨"svc", "main", some 5, "start", "pid"⟩ : ServiceConfig).decisionPolicy ≠
          "bespoke") ∧
    (∀ p ∈ autoscale_services_actions
        [(⟨"svc", "main", some 5, "start", "pid"⟩ : ServiceConfig)]
        (fun _ => some 3),
      p.1 ∈ [(⟨"svc", "main", some 5, "start", "pid"⟩ : ServiceConfig)] ∧
      eligible_for_autoscaling p.1 = true) :=
  autoscale_services_frame
    [(⟨"svc", "main", some 5, "start", "pid"⟩ : ServiceConfig)]
    (⟨"svc", "main", some 5, "start", "pid"⟩ : ServiceConfig)
    (fun _ => some 3)

end Autoscaling
